import Mathlib

/-!
Verification development for the Wellora nutrition API core
(rate limiter, cache manager, idempotent meal-creation guard).

Each definition is a shallow embedding of the corresponding Python
source in `app/`. Time is modelled in whole unix seconds (`Nat`),
floats as rationals (`ℚ`), and the Redis / SQL stores as explicit
functional state threaded through every operation.
-/

namespace Wellora

/-! ### Rate limiter — `app/core/rate_limit.py`

The Redis sorted set behind `rate_limit:{identifier}` stores members
`str(current_time)` with score `current_time`; since the member is the
decimal rendering of the score, the set is faithfully a set of distinct
integer timestamps, modelled as a duplicate-free `List Nat`. The key also
carries the TTL installed by the `EXPIRE` queued on every allowed call:
once it elapses Redis deletes the whole key, so the state is the entry
list together with the key's absolute expiry time.
-/

structure Settings where
  rate_limit_requests : Nat
  rate_limit_window : Nat
deriving DecidableEq

/-- State of the Redis key `rate_limit:{identifier}`: the set of stored
timestamps plus the absolute expiry time of the key itself (`none` for a
key on which no `EXPIRE` has run). -/
structure RLKey where
  entries : List Nat
  expires_at : Option Nat
deriving DecidableEq

/-- Redis key expiry: once the TTL installed by `EXPIRE key window` has
elapsed, the whole key is deleted and every later command sees an empty
set. -/
def expire_key (now : Nat) (st : RLKey) : RLKey :=
  match st.expires_at with
  | some e => if e ≤ now then { entries := [], expires_at := Option.none } else st
  | Option.none => st

/-- Model of `ZREMRANGEBYSCORE key 0 (current_time - window)`: removes every
score `t` with `0 ≤ t ≤ now - window` (integer arithmetic), i.e. every `t`
with `t + window ≤ now`. -/
def zremrangebyscore (window now : Nat) (store : List Nat) : List Nat :=
  store.filter (fun t => !decide (t + window ≤ now))

/-- Model of `ZADD key {str(current_time): current_time}`: the member is
`str(now)`, so a second request in the same second overwrites the existing
member (same score) and the set is unchanged. -/
def zadd (now : Nat) (store : List Nat) : List Nat :=
  if now ∈ store then store else store ++ [now]

/-- Model of `RateLimiter.is_allowed` (initialized client, healthy store),
returning `((allowed, remaining, reset_time), new store)`.

Faithful to the source control flow: the key is first subject to Redis
expiry (all commands of one call run at the same second, so the lazy
deletion is applied once on entry); `zremrangebyscore` is only *queued* on
the pipeline, so the directly-issued `ZCARD` counts the live store as it
stands; the pipeline (purge, `ZADD`, `EXPIRE key window`) executes only on
the allow path, refreshing the key TTL there, and on the deny path the
queued purge is abandoned, leaving entries and TTL unchanged.
`ZRANGE key 0 0` on the deny path reads the minimum score of the unpurged
store. -/
def is_allowed (s : Settings) (store : RLKey) (now : Nat) :
    (Bool × Int × Nat) × RLKey :=
  let live := expire_key now store
  let current_count := live.entries.length
  if s.rate_limit_requests ≤ current_count then
    let reset_time :=
      match live.entries.min? with
      | some oldest => oldest + s.rate_limit_window
      | Option.none => now + s.rate_limit_window
    ((false, (s.rate_limit_requests : Int) - (current_count : Int), reset_time), live)
  else
    ((true, (s.rate_limit_requests : Int) - (current_count : Int) - 1,
        now + s.rate_limit_window),
      { entries := zadd now (zremrangebyscore s.rate_limit_window now live.entries)
        expires_at := some (now + s.rate_limit_window) })

/-- Run a sequence of `is_allowed` calls for one identifier, threading the
stored key state; returns the list of `(allowed, remaining, reset_time)`
results and the final key state. -/
def runCalls (s : Settings) : List Nat → RLKey → List (Bool × Int × Nat) × RLKey
  | [], store => ([], store)
  | t :: ts, store =>
      let r := is_allowed s store t
      let rest := runCalls s ts r.2
      (r.1 :: rest.1, rest.2)

/-- Health of the Redis client as seen by `RateLimiter.is_allowed`. -/
inductive StoreHealth : Type
  | noClient : StoreHealth
  | healthy : StoreHealth
  | down : StoreHealth
deriving DecidableEq

/-- Model of `RateLimiter.is_allowed` including the store-availability
behaviour of the source: when `self.redis_client` is `None` the method
returns `(True, limit, now + window)` at once; when the client is set, the
body contains no `try`/`except`, so a Redis operation that raises
propagates the exception out of `is_allowed` (modelled as `.error ()`). -/
def is_allowed_with_health (s : Settings) (h : StoreHealth) (store : RLKey)
    (now : Nat) : Except Unit ((Bool × Int × Nat) × RLKey) :=
  match h with
  | StoreHealth.noClient =>
      Except.ok ((true, (s.rate_limit_requests : Int), now + s.rate_limit_window), store)
  | StoreHealth.healthy => Except.ok (is_allowed s store now)
  | StoreHealth.down => Except.error ()

/-! ### Rate-limit middleware — `app/main.py` -/

/-- An HTTP response: status code plus the custom headers the middleware
manages (framework-default headers are irrelevant here). -/
structure Response where
  status : Nat
  headers : List (String × String)
deriving DecidableEq

/-- Model of `rate_limit_middleware`: given the limiter result and the inner
handler response. On deny it returns the bare 429 `JSONResponse`, to which
no `X-RateLimit-*` headers are attached; only on the allow path are the two
headers set on the response after `call_next`. -/
def rate_limit_middleware (result : Bool × Int × Nat) (inner : Response) : Response :=
  let allowed := result.1
  let remaining := result.2.1
  let reset_time := result.2.2
  if allowed then
    { status := inner.status,
      headers := inner.headers ++
        [("X-RateLimit-Remaining", toString remaining),
         ("X-RateLimit-Reset", toString reset_time)] }
  else
    { status := 429, headers := [] }

/-! ### Relational data model — `app/models/meal.py`

`Food` and `Meal` rows with the columns the claims mention; SQLAlchemy
`Float` columns are modelled as `ℚ`, `DateTime` as unix seconds (`Nat`).
Note that `meals.idempotency_key` is a plain nullable `String` column with
*no* uniqueness constraint. The database is a list of rows plus the
autoincrement counter for `meals.id`.
-/

structure Food where
  id : Nat
  calories : ℚ
  protein_g : ℚ
  carbs_g : ℚ
  fat_g : ℚ
deriving DecidableEq

structure Meal where
  id : Nat
  user_id : Nat
  food_id : Nat
  servings : ℚ
  timestamp : Nat
  notes : Option String
  calories : ℚ
  protein_g : ℚ
  carbs_g : ℚ
  fat_g : ℚ
  idempotency_key : Option String
deriving DecidableEq

structure DB where
  foods : List Food
  meals : List Meal
  next_meal_id : Nat
deriving DecidableEq

/-- Request body for meal creation (`app/schemas/meal.py`, `MealCreate`). -/
structure MealCreate where
  food_id : Nat
  servings : ℚ
  timestamp : Option Nat
  notes : Option String
deriving DecidableEq

/-- Request body for meal update (`MealUpdate`); a `some` field models a
field present in the request (pydantic `exclude_unset`). -/
structure MealUpdate where
  servings : Option ℚ
  timestamp : Option Nat
  notes : Option String
deriving DecidableEq

/-- Errors the meal service can raise: `HTTPException(404)` for a missing
food, and SQLAlchemy `MultipleResultsFound` from `scalar_one_or_none`. -/
inductive ServiceError : Type
  | notFound : ServiceError
  | multipleResults : ServiceError
deriving DecidableEq

/-- Model of SQLAlchemy `Result.scalar_one_or_none()` applied to the rows a
query matched: none → `None`, exactly one → that row, more than one →
`MultipleResultsFound`. -/
def scalar_one_or_none {α : Type} : List α → Except ServiceError (Option α)
  | [] => Except.ok Option.none
  | [a] => Except.ok (some a)
  | _ :: _ :: _ => Except.error ServiceError.multipleResults

/-- Rows matched by the idempotency lookup query of `create_meal_log`:
`Meal.user_id == user_id AND Meal.idempotency_key == idempotency_key`. -/
def idem_query (db : DB) (user_id : Nat) (k : String) : List Meal :=
  db.meals.filter (fun m => m.user_id == user_id && m.idempotency_key == some k)

/-! ### Meal service — `app/services/meal_service.py`

`create_meal_log` is split into its two store round-trips — the idempotency
lookup and the rest of the body — so that both the sequential composition
(`create_meal_log`) and interleaved executions of two requests can be
expressed over the same definitions.
-/

/-- First store round-trip of `create_meal_log`: the guard is Python
truthiness (`if idempotency_key:`), so both `None` and the empty string
skip the lookup; otherwise the idempotency query is run through
`scalar_one_or_none`. -/
def lookup_idempotent (db : DB) (user_id : Nat) (idempotency_key : Option String) :
    Except ServiceError (Option Meal) :=
  match idempotency_key with
  | Option.none => Except.ok Option.none
  | some k =>
      if k = "" then Except.ok Option.none
      else scalar_one_or_none (idem_query db user_id k)

/-- Model of `session.get(Food, food_id)`: primary-key lookup. -/
def get_food (db : DB) (food_id : Nat) : Option Food :=
  db.foods.find? (fun f => f.id == food_id)

/-- Remainder of `create_meal_log` past the idempotency lookup: resolve the
food (404 if absent, before any mutation), compute macro totals as
`food.field * servings`, stamp `meal_data.timestamp or utc_now()`, and
insert the new row tagged with the idempotency key. -/
def insert_meal (db : DB) (user_id : Nat) (meal_data : MealCreate)
    (idempotency_key : Option String) (now : Nat) : Except ServiceError Meal × DB :=
  match get_food db meal_data.food_id with
  | Option.none => (Except.error ServiceError.notFound, db)
  | some food =>
      let db_meal : Meal :=
        { id := db.next_meal_id
          user_id := user_id
          food_id := meal_data.food_id
          servings := meal_data.servings
          timestamp := meal_data.timestamp.getD now
          notes := meal_data.notes
          calories := food.calories * meal_data.servings
          protein_g := food.protein_g * meal_data.servings
          carbs_g := food.carbs_g * meal_data.servings
          fat_g := food.fat_g * meal_data.servings
          idempotency_key := idempotency_key }
      (Except.ok db_meal,
        { db with meals := db.meals ++ [db_meal], next_meal_id := db.next_meal_id + 1 })

/-- Continuation of `create_meal_log` given the result of the idempotency
lookup: a raised lookup error propagates, a found meal is returned
unchanged, otherwise the creation path runs. -/
def create_after_lookup (db : DB) (user_id : Nat) (meal_data : MealCreate)
    (idempotency_key : Option String) (now : Nat)
    (looked : Except ServiceError (Option Meal)) : Except ServiceError Meal × DB :=
  match looked with
  | Except.error e => (Except.error e, db)
  | Except.ok (some existing_meal) => (Except.ok existing_meal, db)
  | Except.ok Option.none => insert_meal db user_id meal_data idempotency_key now

/-- Model of `MealService.create_meal_log` (sequential execution): the
idempotency lookup followed by its continuation against the same state. -/
def create_meal_log (db : DB) (user_id : Nat) (meal_data : MealCreate)
    (idempotency_key : Option String) (now : Nat) : Except ServiceError Meal × DB :=
  create_after_lookup db user_id meal_data idempotency_key now
    (lookup_idempotent db user_id idempotency_key)

/-- Interleaved execution of two `create_meal_log` requests A and B with the
same arguments under the schedule (A.lookup, B.lookup, A.rest, B.rest):
both lookups read the shared state before either insert commits, then each
continuation runs against the then-current shared state with its own stale
lookup result. Every step is one store round-trip of the source, so this
schedule is a possible interleaving of the two coroutines. -/
def race_schedule (db : DB) (user_id : Nat) (meal_data : MealCreate) (k : String)
    (now : Nat) : Except ServiceError Meal × Except ServiceError Meal × DB :=
  let lookA := lookup_idempotent db user_id (some k)
  let lookB := lookup_idempotent db user_id (some k)
  let stepA := create_after_lookup db user_id meal_data (some k) now lookA
  let stepB := create_after_lookup stepA.2 user_id meal_data (some k) now lookB
  (stepA.1, stepB.1, stepB.2)

/-- Pagination / filter parameters (`MealListParams`). -/
structure MealListParams where
  limit : Nat
  offset : Nat
  start_date : Option Nat
  end_date : Option Nat
deriving DecidableEq

/-- Model of `MealService.list_meals`: filter by the caller's `user_id`,
apply the optional date bounds, order by `timestamp` descending, count the
full filtered query, then apply offset and limit. -/
def list_meals (db : DB) (user_id : Nat) (p : MealListParams) : List Meal × Nat :=
  let q1 := db.meals.filter (fun m => m.user_id == user_id)
  let q2 := match p.start_date with
    | some d => q1.filter (fun (m : Meal) => decide (d ≤ m.timestamp))
    | Option.none => q1
  let q3 := match p.end_date with
    | some d => q2.filter (fun (m : Meal) => decide (m.timestamp ≤ d))
    | Option.none => q2
  let ordered := q3.mergeSort (fun a b => decide (b.timestamp ≤ a.timestamp))
  (((ordered.drop p.offset).take p.limit), ordered.length)

/-- Model of `MealService.get_meal_by_id`: `scalar_one_or_none` over the
rows with `Meal.id == meal_id AND Meal.user_id == user_id`. -/
def get_meal_by_id (db : DB) (user_id meal_id : Nat) : Except ServiceError (Option Meal) :=
  scalar_one_or_none
    (db.meals.filter (fun m => m.id == meal_id && m.user_id == user_id))

/-- Application of the `exclude_unset` fields of a `MealUpdate` to a row
(the `setattr` loop of `update_meal_log`). -/
def apply_meal_update (m : Meal) (u : MealUpdate) : Meal :=
  { m with
    servings := u.servings.getD m.servings
    timestamp := u.timestamp.getD m.timestamp
    notes := match u.notes with | some s => some s | Option.none => m.notes }

/-- Macro recomputation step of `update_meal_log`: when `"servings"` was
among the supplied fields and the food still resolves, recompute the
stored totals from the new servings count. -/
def recompute_totals (db : DB) (servings_supplied : Bool) (m0 : Meal) : Meal :=
  if servings_supplied then
    match get_food db m0.food_id with
    | some food =>
        { m0 with
          calories := food.calories * m0.servings
          protein_g := food.protein_g * m0.servings
          carbs_g := food.carbs_g * m0.servings
          fat_g := food.fat_g * m0.servings }
    | Option.none => m0
  else m0

/-- Model of `MealService.update_meal_log`: tenant-scoped fetch, `setattr`
of the supplied fields, macro recomputation when `servings` was supplied
and the food still resolves, then commit of the changed row (identified by
its primary key). -/
def update_meal_log (db : DB) (user_id meal_id : Nat) (u : MealUpdate) :
    Except ServiceError (Option Meal) × DB :=
  match get_meal_by_id db user_id meal_id with
  | Except.error e => (Except.error e, db)
  | Except.ok Option.none => (Except.ok Option.none, db)
  | Except.ok (some db_meal) =>
      let updated := recompute_totals db u.servings.isSome (apply_meal_update db_meal u)
      (Except.ok (some updated),
        { db with
          meals := db.meals.map (fun m => if m.id == db_meal.id then updated else m) })

/-- Model of `MealService.delete_meal_log`: tenant-scoped fetch, then
deletion of the fetched row (by primary key) and commit. -/
def delete_meal_log (db : DB) (user_id meal_id : Nat) : Except ServiceError Bool × DB :=
  match get_meal_by_id db user_id meal_id with
  | Except.error e => (Except.error e, db)
  | Except.ok Option.none => (Except.ok false, db)
  | Except.ok (some db_meal) =>
      (Except.ok true,
        { db with meals := db.meals.filter (fun m => !(m.id == db_meal.id)) })

/-! ### Cache manager — `app/core/cache.py`

`set_cached_data` serializes with `json.dumps` and stores via `SETEX`;
`get_cached_data` reads and parses with `json.loads`. Python values and
JSON documents are modelled as trees (the textual layer of the `json`
module is a bijection onto such trees for the fragment modelled here), and
the Redis string store as a list of entries with absolute expiry times.
-/

/-- JSON documents as produced by `json.dumps` and consumed by
`json.loads`. Numbers are modelled as integers (floats are not needed by
any claim). -/
inductive Json : Type
  | null : Json
  | bool : Bool → Json
  | num : Int → Json
  | str : String → Json
  | arr : List Json → Json
  | obj : List (String × Json) → Json

/-- Python values in the fragment the `json` module accepts: `None`,
`bool`, `int`, `str`, `list`, `tuple` and `dict` (with arbitrary-typed
keys). -/
inductive PyVal : Type
  | none : PyVal
  | bool : Bool → PyVal
  | int : Int → PyVal
  | str : String → PyVal
  | list : List PyVal → PyVal
  | tuple : List PyVal → PyVal
  | dict : List (PyVal × PyVal) → PyVal

/-- Coercion `json.dumps` applies to a dict key: strings unchanged, `int`
via `str()`, booleans to `"true"`/`"false"`, `None` to `"null"`; any other
key type raises `TypeError`. -/
def key_to_string : PyVal → Option String
  | PyVal.str s => some s
  | PyVal.int n => some (toString n)
  | PyVal.bool true => some "true"
  | PyVal.bool false => some "false"
  | PyVal.none => some "null"
  | _ => Option.none

mutual

/-- Model of `json.dumps`: tuples are serialized as JSON arrays, dict keys
are coerced by `key_to_string`; an unserializable key raises (`none`). -/
def dumps : PyVal → Option Json
  | PyVal.none => some Json.null
  | PyVal.bool b => some (Json.bool b)
  | PyVal.int n => some (Json.num n)
  | PyVal.str s => some (Json.str s)
  | PyVal.list xs =>
      match dumpsList xs with
      | some js => some (Json.arr js)
      | Option.none => Option.none
  | PyVal.tuple xs =>
      match dumpsList xs with
      | some js => some (Json.arr js)
      | Option.none => Option.none
  | PyVal.dict kvs =>
      match dumpsObj kvs with
      | some os => some (Json.obj os)
      | Option.none => Option.none

/-- Serialization of a list of elements. -/
def dumpsList : List PyVal → Option (List Json)
  | [] => some []
  | x :: xs =>
      match dumps x, dumpsList xs with
      | some j, some js => some (j :: js)
      | _, _ => Option.none

/-- Serialization of dict items with key coercion. -/
def dumpsObj : List (PyVal × PyVal) → Option (List (String × Json))
  | [] => some []
  | kv :: kvs =>
      match key_to_string kv.1, dumps kv.2, dumpsObj kvs with
      | some s, some j, some os => some ((s, j) :: os)
      | _, _, _ => Option.none

end

mutual

/-- Model of `json.loads`: arrays become Python lists, objects become
dicts whose keys are strings. -/
def loads : Json → PyVal
  | Json.null => PyVal.none
  | Json.bool b => PyVal.bool b
  | Json.num n => PyVal.int n
  | Json.str s => PyVal.str s
  | Json.arr js => PyVal.list (loadsList js)
  | Json.obj kvs => PyVal.dict (loadsObj kvs)

/-- Parsing of an array of elements. -/
def loadsList : List Json → List PyVal
  | [] => []
  | j :: js => loads j :: loadsList js

/-- Parsing of object members. -/
def loadsObj : List (String × Json) → List (PyVal × PyVal)
  | [] => []
  | kv :: kvs => (PyVal.str kv.1, loads kv.2) :: loadsObj kvs

end

mutual

/-- Values in the canonical image of JSON: no tuples, and every dict key a
string. Exactly these round-trip to a deep-equal value. -/
def canonical : PyVal → Bool
  | PyVal.none => true
  | PyVal.bool _ => true
  | PyVal.int _ => true
  | PyVal.str _ => true
  | PyVal.list xs => canonicalList xs
  | PyVal.tuple _ => false
  | PyVal.dict kvs => canonicalObj kvs

/-- Canonicity of every element of a list. -/
def canonicalList : List PyVal → Bool
  | [] => true
  | x :: xs => canonical x && canonicalList xs

/-- Canonicity of every dict item: string key, canonical value. -/
def canonicalObj : List (PyVal × PyVal) → Bool
  | [] => true
  | kv :: kvs =>
      (match kv.1 with | PyVal.str _ => true | _ => false) && canonical kv.2 && canonicalObj kvs

end

/-- One Redis string entry written by `SETEX`: serialized value plus
absolute expiry time. -/
structure CacheEntry where
  key : String
  value : Json
  expires_at : Nat

/-- Model of `CacheManager.set_cached_data` (connected client):
`json.dumps` then `SETEX key expiry_seconds json_data`, which overwrites
any previous value under the key; a serialization error is swallowed by
the `except` block and the store is left unchanged. -/
def set_cached_data (st : List CacheEntry) (key : String) (data : PyVal)
    (expiry_seconds : Nat) (now : Nat) : List CacheEntry :=
  match dumps data with
  | Option.none => st
  | some j =>
      { key := key, value := j, expires_at := now + expiry_seconds } ::
        st.filter (fun e => !(e.key == key))

/-- Model of `CacheManager.get_cached_data` (connected client): `GET key`
— absent or expired keys yield a miss — then `json.loads` of the stored
string. -/
def get_cached_data (st : List CacheEntry) (key : String) (now : Nat) : Option PyVal :=
  match st.find? (fun e => e.key == key) with
  | Option.none => Option.none
  | some e => if now < e.expires_at then some (loads e.value) else Option.none

/-! ## Claim theorems -/

/-- C1: the claim says that for N same-identifier calls within one window
exactly `min(N, rate_limit_requests)` are admitted with `remaining`
descending `limit - k`. Counterexample on the code: with limit 5, window
60, six calls in the same second 100 are *all* admitted (the sorted-set
member `str(now)` collides, so the count never grows past 1), and the
remaining values are 4,3,3,3,3,3 rather than 4,3,2,1,0. -/
theorem C1_same_second_calls_all_allowed :
    (runCalls ⟨5, 60⟩ [100, 100, 100, 100, 100, 100] ⟨[], Option.none⟩).1.map (fun r => r.1)
        = [true, true, true, true, true, true] ∧
    (runCalls ⟨5, 60⟩ [100, 100, 100, 100, 100, 100] ⟨[], Option.none⟩).1.map (fun r => r.2.1)
        = [4, 3, 3, 3, 3, 3] ∧
    (runCalls ⟨5, 60⟩ [100, 100, 100, 100, 100, 100] ⟨[], Option.none⟩).2
        = ⟨[100], some 160⟩ := by
  decide

/-- C2: the claim says timestamps strictly older than `now - window` are
discarded before the stored timestamps are counted. Counterexample on the
code: with limit 5, window 60, five admitted calls at seconds 0..4 (the
last refreshing the key TTL to 64) followed by a call at second 63, while
the key is still alive. The window is `[3, 63]`, so only the entries 3 and
4 may count (a count of 2 would admit the call), but `ZCARD` runs before
the queued purge ever executes and returns 5, so the code denies the call
— with a reset time of 60, already in the past — and, the deny path never
executing the pipeline, the three stale entries 0, 1, 2 stay stored. -/
theorem C2_stale_entries_counted :
    (runCalls ⟨5, 60⟩ [0, 1, 2, 3, 4, 63] ⟨[], Option.none⟩).1
        = [(true, 4, 60), (true, 3, 61), (true, 2, 62), (true, 1, 63), (true, 0, 64),
           (false, 0, 60)] ∧
    (runCalls ⟨5, 60⟩ [0, 1, 2, 3, 4, 63] ⟨[], Option.none⟩).2
        = ⟨[0, 1, 2, 3, 4], some 64⟩ ∧
    ((runCalls ⟨5, 60⟩ [0, 1, 2, 3, 4, 63] ⟨[], Option.none⟩).2.entries.filter
        (fun t => decide (t + 60 < 63))).length = 3 := by
  decide

/-- C5: the claim says every response, including the 429 rejection, carries
the `X-RateLimit-Remaining` and `X-RateLimit-Reset` headers. On the code
the denied path returns the 429 `JSONResponse` without either header; only
allowed responses get them. -/
theorem C5_denied_response_lacks_headers :
    (rate_limit_middleware (false, 0, 60) ⟨200, []⟩).status = 429 ∧
    ((rate_limit_middleware (false, 0, 60) ⟨200, []⟩).headers.map
        Prod.fst).contains "X-RateLimit-Remaining" = false ∧
    ((rate_limit_middleware (false, 0, 60) ⟨200, []⟩).headers.map
        Prod.fst).contains "X-RateLimit-Reset" = false ∧
    (rate_limit_middleware (true, 4, 160) ⟨200, []⟩).headers.map Prod.fst
        = ["X-RateLimit-Remaining", "X-RateLimit-Reset"] := by
  decide

/-- C6: the claim says `is_allowed` fails open both when the client is not
initialized and when a store operation fails. On the code only the first
half holds: an uninitialized client yields `(True, limit, now + window)`,
but with an initialized client a failing Redis operation raises out of
`is_allowed` (no `try`/`except` in the body) instead of allowing. -/
theorem C6_store_down_raises_instead_of_failing_open :
    is_allowed_with_health ⟨5, 60⟩ StoreHealth.down ⟨[], Option.none⟩ 100
        = Except.error () ∧
    is_allowed_with_health ⟨5, 60⟩ StoreHealth.noClient ⟨[], Option.none⟩ 100
        = Except.ok ((true, 5, 160), ⟨[], Option.none⟩) :=
  ⟨rfl, rfl⟩

/-- Helper: `scalar_one_or_none` returns a row exactly when the query
matched that single row. -/
theorem scalar_one_or_none_eq_some {α : Type} {l : List α} {a : α}
    (h : scalar_one_or_none l = Except.ok (some a)) : l = [a] := by
  cases l with
  | nil => simp [scalar_one_or_none] at h
  | cons x xs =>
    cases xs with
    | nil =>
      simp [scalar_one_or_none] at h
      simp [h]
    | cons y ys => simp [scalar_one_or_none] at h

/-- Helper: shape of the creation path of `create_meal_log` when the food
resolves — the new row is appended with the computed fields. -/
theorem insert_meal_spec (db : DB) (user_id : Nat) (meal_data : MealCreate)
    (idempotency_key : Option String) (now : Nat) (food : Food)
    (hfood : get_food db meal_data.food_id = some food) :
    ∃ m : Meal,
      insert_meal db user_id meal_data idempotency_key now =
        (Except.ok m, { db with meals := db.meals ++ [m], next_meal_id := db.next_meal_id + 1 }) ∧
      m.user_id = user_id ∧
      m.idempotency_key = idempotency_key ∧
      m.calories = food.calories * meal_data.servings ∧
      m.protein_g = food.protein_g * meal_data.servings ∧
      m.carbs_g = food.carbs_g * meal_data.servings ∧
      m.fat_g = food.fat_g * meal_data.servings ∧
      m.timestamp = meal_data.timestamp.getD now ∧
      m.id = db.next_meal_id := by
  refine
    ⟨{ id := db.next_meal_id
       user_id := user_id
       food_id := meal_data.food_id
       servings := meal_data.servings
       timestamp := meal_data.timestamp.getD now
       notes := meal_data.notes
       calories := food.calories * meal_data.servings
       protein_g := food.protein_g * meal_data.servings
       carbs_g := food.carbs_g * meal_data.servings
       fat_g := food.fat_g * meal_data.servings
       idempotency_key := idempotency_key },
      ?_, rfl, rfl, rfl, rfl, rfl, rfl, rfl, rfl⟩
  simp [insert_meal, hfood]

/-- C3 counterexample: the empty string is a non-null idempotency key that
`json` clients can send, but the source guard `if idempotency_key:` is
Python truthiness, so a call with key `""` never performs the lookup. Two
successive calls with key `""` (valid food, empty store) therefore both
insert, leaving two persisted rows carrying key `""` for user 7 — the
second call finds an existing `(7, "")` meal yet writes a duplicate
instead of returning it. -/
theorem C3_counterexample_empty_string_key :
    ((create_meal_log
        (create_meal_log
          { foods := [{ id := 3, calories := 100, protein_g := 10, carbs_g := 0, fat_g := 0 }],
            meals := [], next_meal_id := 1 }
          7 { food_id := 3, servings := 2, timestamp := Option.none, notes := Option.none }
          (some "") 5).2
        7 { food_id := 3, servings := 2, timestamp := Option.none, notes := Option.none }
        (some "") 6).2.meals.filter
      (fun m => m.user_id == 7 && m.idempotency_key == some "")).length = 2 := by
  rfl

/-- C3 (amended): for a non-null, *non-empty* key — the source treats `""`
like an absent key — a call that finds exactly one existing meal for
`(user_id, key)` returns it with the store untouched (a pure read), and
two successive calls with the same fresh key yield equal results and
exactly one appended row, the second call writing nothing. -/
theorem C3_nonempty_key_idempotent_pure_read (db : DB) (user_id : Nat)
    (meal_data : MealCreate) (k : String) (hk : ¬ k = "") (now now2 : Nat) :
    (∀ m : Meal, idem_query db user_id k = [m] →
        create_meal_log db user_id meal_data (some k) now = (Except.ok m, db)) ∧
    (idem_query db user_id k = [] → (get_food db meal_data.food_id).isSome = true →
        ((create_meal_log db user_id meal_data (some k) now).1 =
            (create_meal_log (create_meal_log db user_id meal_data (some k) now).2
              user_id meal_data (some k) now2).1 ∧
          (create_meal_log (create_meal_log db user_id meal_data (some k) now).2
              user_id meal_data (some k) now2).2 =
            (create_meal_log db user_id meal_data (some k) now).2 ∧
          (create_meal_log db user_id meal_data (some k) now).2.meals.length
            = db.meals.length + 1)) := by
  constructor
  · intro m h
    simp [create_meal_log, lookup_idempotent, hk, h, scalar_one_or_none, create_after_lookup]
  · intro h hfood
    obtain ⟨food, hfood⟩ := Option.isSome_iff_exists.mp hfood
    obtain ⟨m, hm, hmu, hmk, _⟩ :=
      insert_meal_spec db user_id meal_data (some k) now food hfood
    have h1 : create_meal_log db user_id meal_data (some k) now =
        (Except.ok m, { db with meals := db.meals ++ [m], next_meal_id := db.next_meal_id + 1 }) := by
      rw [← hm]
      simp [create_meal_log, lookup_idempotent, hk, h, scalar_one_or_none, create_after_lookup]
    have h2 : idem_query { db with meals := db.meals ++ [m], next_meal_id := db.next_meal_id + 1 } user_id k = [m] := by
      simp only [idem_query] at h ⊢
      simp [List.filter_append, h, hmu, hmk]
    have h3 : create_meal_log { db with meals := db.meals ++ [m], next_meal_id := db.next_meal_id + 1 } user_id meal_data (some k) now2 =
        (Except.ok m, { db with meals := db.meals ++ [m], next_meal_id := db.next_meal_id + 1 }) := by
      simp [create_meal_log, lookup_idempotent, hk, h2, scalar_one_or_none, create_after_lookup]
    rw [h1]
    simp [h3]

/-- C3 witness: a store holding the meal for `(7, "abc")` makes the call a
pure read, and starting from a fresh key the two successive calls agree
and append exactly one row. -/
theorem C3_witness :
    create_meal_log
        { foods := [{ id := 3, calories := 100, protein_g := 10, carbs_g := 0, fat_g := 0 }],
          meals := [{ id := 1, user_id := 7, food_id := 3, servings := 2, timestamp := 10,
                      notes := Option.none, calories := 200, protein_g := 20, carbs_g := 0,
                      fat_g := 0, idempotency_key := some "abc" }],
          next_meal_id := 2 }
        7 { food_id := 3, servings := 2, timestamp := Option.none, notes := Option.none }
        (some "abc") 11 =
      (Except.ok
          { id := 1, user_id := 7, food_id := 3, servings := 2, timestamp := 10,
            notes := Option.none, calories := 200, protein_g := 20, carbs_g := 0,
            fat_g := 0, idempotency_key := some "abc" },
        { foods := [{ id := 3, calories := 100, protein_g := 10, carbs_g := 0, fat_g := 0 }],
          meals := [{ id := 1, user_id := 7, food_id := 3, servings := 2, timestamp := 10,
                      notes := Option.none, calories := 200, protein_g := 20, carbs_g := 0,
                      fat_g := 0, idempotency_key := some "abc" }],
          next_meal_id := 2 }) ∧
    (create_meal_log
          { foods := [{ id := 3, calories := 100, protein_g := 10, carbs_g := 0, fat_g := 0 }],
            meals := [], next_meal_id := 1 }
          7 { food_id := 3, servings := 2, timestamp := Option.none, notes := Option.none }
          (some "abc") 5).2.meals.length = 0 + 1 := by
  constructor
  · exact (C3_nonempty_key_idempotent_pure_read
      { foods := [{ id := 3, calories := 100, protein_g := 10, carbs_g := 0, fat_g := 0 }],
        meals := [{ id := 1, user_id := 7, food_id := 3, servings := 2, timestamp := 10,
                    notes := Option.none, calories := 200, protein_g := 20, carbs_g := 0,
                    fat_g := 0, idempotency_key := some "abc" }],
        next_meal_id := 2 }
      7 { food_id := 3, servings := 2, timestamp := Option.none, notes := Option.none }
      "abc" (by decide) 11 12).1 _ (by decide)
  · exact ((C3_nonempty_key_idempotent_pure_read
      { foods := [{ id := 3, calories := 100, protein_g := 10, carbs_g := 0, fat_g := 0 }],
        meals := [], next_meal_id := 1 }
      7 { food_id := 3, servings := 2, timestamp := Option.none, notes := Option.none }
      "abc" (by decide) 5 6).2 (by decide) (by decide)).2.2

/-- C8: with a key matching nothing (or no key) and a `food_id` that
resolves to no `Food`, `create_meal_log` fails with the 404 error and
returns the store unchanged — the existence check precedes any mutation. -/
theorem C8_missing_food_fails_notfound_persists_nothing (db : DB) (user_id : Nat)
    (meal_data : MealCreate) (idempotency_key : Option String) (now : Nat)
    (hidem : lookup_idempotent db user_id idempotency_key = Except.ok Option.none)
    (hfood : get_food db meal_data.food_id = Option.none) :
    create_meal_log db user_id meal_data idempotency_key now
      = (Except.error ServiceError.notFound, db) := by
  simp [create_meal_log, hidem, create_after_lookup, insert_meal, hfood]

/-- C8 witness: creating against an empty food catalog raises 404 and
leaves the store untouched. -/
theorem C8_witness :
    create_meal_log { foods := [], meals := [], next_meal_id := 1 }
        7 { food_id := 3, servings := 2, timestamp := Option.none, notes := Option.none }
        (some "abc") 5
      = (Except.error ServiceError.notFound,
         { foods := [], meals := [], next_meal_id := 1 }) :=
  C8_missing_food_fails_notfound_persists_nothing
    { foods := [], meals := [], next_meal_id := 1 }
    7 { food_id := 3, servings := 2, timestamp := Option.none, notes := Option.none }
    (some "abc") 5 rfl rfl

/-- C9: on the successful creation path the persisted row satisfies the
`food.field * servings` macro equations, its timestamp is the
client-supplied one when present and `now` otherwise, and it carries the
supplied idempotency key. -/
theorem C9_creation_path_totals (db : DB) (user_id : Nat) (meal_data : MealCreate)
    (idempotency_key : Option String) (now : Nat)
    (hidem : lookup_idempotent db user_id idempotency_key = Except.ok Option.none)
    (food : Food) (hfood : get_food db meal_data.food_id = some food) :
    ∃ m : Meal,
      create_meal_log db user_id meal_data idempotency_key now =
        (Except.ok m,
          { db with meals := db.meals ++ [m], next_meal_id := db.next_meal_id + 1 }) ∧
      m.calories = food.calories * meal_data.servings ∧
      m.protein_g = food.protein_g * meal_data.servings ∧
      m.carbs_g = food.carbs_g * meal_data.servings ∧
      m.fat_g = food.fat_g * meal_data.servings ∧
      (∀ t, meal_data.timestamp = some t → m.timestamp = t) ∧
      (meal_data.timestamp = Option.none → m.timestamp = now) ∧
      m.idempotency_key = idempotency_key := by
  obtain ⟨m, hm, _, hk, hc, hp, hcb, hf, ht, _⟩ :=
    insert_meal_spec db user_id meal_data idempotency_key now food hfood
  refine ⟨m, ?_, hc, hp, hcb, hf, ?_, ?_, hk⟩
  · rw [← hm]
    simp [create_meal_log, hidem, create_after_lookup]
  · intro t htt
    rw [ht, htt]
    rfl
  · intro htt
    rw [ht, htt]
    rfl

/-- C9 witness: `createMeal(user=7, food 3 at 100 kcal / 10 g protein per
serving, servings=2, key="abc")` persists a row with calories 200 and
protein 20, stamped with the supplied timestamp and key. -/
theorem C9_witness :
    ∃ m : Meal,
      create_meal_log
          { foods := [{ id := 3, calories := 100, protein_g := 10, carbs_g := 0, fat_g := 0 }],
            meals := [], next_meal_id := 1 }
          7 { food_id := 3, servings := 2, timestamp := some 10, notes := Option.none }
          (some "abc") 5 =
        (Except.ok m,
          { foods := [{ id := 3, calories := 100, protein_g := 10, carbs_g := 0, fat_g := 0 }],
            meals := [m], next_meal_id := 2 }) ∧
      m.calories = (100 : ℚ) * 2 ∧
      m.protein_g = (10 : ℚ) * 2 ∧
      m.carbs_g = (0 : ℚ) * 2 ∧
      m.fat_g = (0 : ℚ) * 2 ∧
      (∀ t, (some 10 : Option Nat) = some t → m.timestamp = t) ∧
      ((some 10 : Option Nat) = Option.none → m.timestamp = 5) ∧
      m.idempotency_key = some "abc" :=
  C9_creation_path_totals
    { foods := [{ id := 3, calories := 100, protein_g := 10, carbs_g := 0, fat_g := 0 }],
      meals := [], next_meal_id := 1 }
    7 { food_id := 3, servings := 2, timestamp := some 10, notes := Option.none }
    (some "abc") 5 rfl
    { id := 3, calories := 100, protein_g := 10, carbs_g := 0, fat_g := 0 } rfl

/-- C4: the claim says two concurrent `create_meal_log` calls with the
same `(user_id, key)` persist exactly one row. Counterexample on the code:
under the interleaving (A.lookup, B.lookup, A.insert, B.insert) both
lookups observe "not found" — there is no unique constraint on
`(user_id, idempotency_key)` and no lock — so both insert, leaving two
rows for `(7, "abc")`, and both calls return success. -/
theorem C4_race_both_requests_insert :
    ((race_schedule
          { foods := [{ id := 3, calories := 100, protein_g := 10, carbs_g := 0, fat_g := 0 }],
            meals := [], next_meal_id := 1 }
          7 { food_id := 3, servings := 2, timestamp := Option.none, notes := Option.none }
          "abc" 5).2.2.meals.filter
        (fun m => m.user_id == 7 && m.idempotency_key == some "abc")).length = 2 ∧
    (race_schedule
          { foods := [{ id := 3, calories := 100, protein_g := 10, carbs_g := 0, fat_g := 0 }],
            meals := [], next_meal_id := 1 }
          7 { food_id := 3, servings := 2, timestamp := Option.none, notes := Option.none }
          "abc" 5).1.toOption.isSome = true ∧
    (race_schedule
          { foods := [{ id := 3, calories := 100, protein_g := 10, carbs_g := 0, fat_g := 0 }],
            meals := [], next_meal_id := 1 }
          7 { food_id := 3, servings := 2, timestamp := Option.none, notes := Option.none }
          "abc" 5).2.1.toOption.isSome = true := by
  refine ⟨rfl, rfl, rfl⟩

/-- Helper: a row returned by the tenant-scoped fetch belongs to the
caller and is a stored row. -/
theorem get_meal_by_id_user (db : DB) (user_id meal_id : Nat) (m : Meal)
    (h : get_meal_by_id db user_id meal_id = Except.ok (some m)) :
    m.user_id = user_id ∧ m ∈ db.meals := by
  simp only [get_meal_by_id] at h
  have hf := scalar_one_or_none_eq_some h
  have hmem : m ∈ db.meals.filter (fun m => m.id == meal_id && m.user_id == user_id) := by
    rw [hf]
    exact List.mem_singleton.mpr rfl
  rw [List.mem_filter] at hmem
  refine ⟨?_, hmem.1⟩
  have h2 := hmem.2
  simp [Bool.and_eq_true] at h2
  exact h2.2

/-- Helper: the `setattr` application does not change `user_id`. -/
theorem apply_meal_update_user_id (m : Meal) (u : MealUpdate) :
    (apply_meal_update m u).user_id = m.user_id := rfl

/-- Helper: the macro recomputation step does not change `user_id`. -/
theorem recompute_totals_user_id (db : DB) (b : Bool) (m0 : Meal) :
    (recompute_totals db b m0).user_id = m0.user_id := by
  cases hf : get_food db m0.food_id <;> cases b <;> simp [recompute_totals, hf]

/-- Helper: every row produced by `list_meals` passes the tenant filter. -/
theorem mem_list_meals_user (db : DB) (user_id : Nat) (p : MealListParams) (m : Meal)
    (hm : m ∈ (list_meals db user_id p).1) : m.user_id = user_id := by
  simp only [list_meals] at hm
  have h2 := List.mem_of_mem_drop (List.mem_of_mem_take hm)
  rw [(List.mergeSort_perm _ _).mem_iff] at h2
  have h1 : m ∈ db.meals.filter (fun m => m.user_id == user_id) := by
    cases hs : p.start_date <;> cases he : p.end_date <;> rw [hs, he] at h2
    · exact h2
    · exact (List.mem_filter.mp h2).1
    · exact (List.mem_filter.mp h2).1
    · exact (List.mem_filter.mp (List.mem_filter.mp h2).1).1
  have h3 := (List.mem_filter.mp h1).2
  simpa using h3

/-- Helper: committing an updated row owned by the caller changes no row
of any other user, provided every stored row sharing the target id is the
caller's. -/
theorem filter_map_update_other_users (l : List Meal) (user_id tid : Nat) (updated : Meal)
    (hupd : updated.user_id = user_id)
    (hl : ∀ m ∈ l, m.id = tid → m.user_id = user_id) :
    (l.map (fun m => if m.id == tid then updated else m)).filter
        (fun m => !(m.user_id == user_id)) =
      l.filter (fun m => !(m.user_id == user_id)) := by
  induction l with
  | nil => rfl
  | cons x xs ih =>
    have hxs : ∀ m ∈ xs, m.id = tid → m.user_id = user_id :=
      fun m hm => hl m (List.mem_cons_of_mem _ hm)
    by_cases hx : x.id = tid
    · have hxu : x.user_id = user_id := hl x (List.mem_cons_self _ _) hx
      simp [List.filter_cons, hx, hxu, hupd]
      simpa using ih hxs
    · by_cases hxu : x.user_id = user_id <;>
        simp [List.filter_cons, hx, hxu] <;> simpa using ih hxs

/-- Helper: deleting a row owned by the caller changes no row of any other
user, provided every stored row sharing the target id is the caller's. -/
theorem filter_erase_other_users (l : List Meal) (user_id tid : Nat)
    (hl : ∀ m ∈ l, m.id = tid → m.user_id = user_id) :
    (l.filter (fun m => !(m.id == tid))).filter (fun m => !(m.user_id == user_id)) =
      l.filter (fun m => !(m.user_id == user_id)) := by
  induction l with
  | nil => rfl
  | cons x xs ih =>
    have hxs : ∀ m ∈ xs, m.id = tid → m.user_id = user_id :=
      fun m hm => hl m (List.mem_cons_of_mem _ hm)
    by_cases hx : x.id = tid
    · have hxu : x.user_id = user_id := hl x (List.mem_cons_self _ _) hx
      simp [List.filter_cons, hx, hxu]
      simpa using ih hxs
    · by_cases hxu : x.user_id = user_id <;>
        simp [List.filter_cons, hx, hxu] <;> simpa using ih hxs

/-- C10: every meal operation is tenant-scoped — fetched, listed and
updated rows always carry the caller's `user_id`; when the addressed meal
is not the caller's, update and delete report `None`/`False` with the
store unchanged; and the commits of update and delete never touch a row
of another user (ids assumed unique, as for a primary-key column). -/
theorem C10_meal_operations_tenant_scoped (db : DB) (user_id meal_id : Nat)
    (p : MealListParams) (u : MealUpdate)
    (hwf : ∀ a ∈ db.meals, ∀ b ∈ db.meals, a.id = b.id → a = b) :
    (∀ m : Meal, get_meal_by_id db user_id meal_id = Except.ok (some m) →
        m.user_id = user_id) ∧
    (∀ m ∈ (list_meals db user_id p).1, m.user_id = user_id) ∧
    (∀ m : Meal, (update_meal_log db user_id meal_id u).1 = Except.ok (some m) →
        m.user_id = user_id) ∧
    (get_meal_by_id db user_id meal_id = Except.ok Option.none →
        update_meal_log db user_id meal_id u = (Except.ok Option.none, db)) ∧
    (get_meal_by_id db user_id meal_id = Except.ok Option.none →
        delete_meal_log db user_id meal_id = (Except.ok false, db)) ∧
    ((update_meal_log db user_id meal_id u).2.meals.filter
        (fun m => !(m.user_id == user_id)) =
      db.meals.filter (fun m => !(m.user_id == user_id))) ∧
    ((delete_meal_log db user_id meal_id).2.meals.filter
        (fun m => !(m.user_id == user_id)) =
      db.meals.filter (fun m => !(m.user_id == user_id))) := by
  refine ⟨?_, ?_, ?_, ?_, ?_, ?_, ?_⟩
  · exact fun m h => (get_meal_by_id_user db user_id meal_id m h).1
  · exact fun m hm => mem_list_meals_user db user_id p m hm
  · intro m h
    cases hget : get_meal_by_id db user_id meal_id with
    | error e => simp [update_meal_log, hget] at h
    | ok o =>
      cases o with
      | none => simp [update_meal_log, hget] at h
      | some db_meal =>
        simp only [update_meal_log, hget] at h
        have hm2 := Option.some.inj (Except.ok.inj h)
        rw [← hm2, recompute_totals_user_id, apply_meal_update_user_id]
        exact (get_meal_by_id_user db user_id meal_id db_meal hget).1
  · intro h
    simp [update_meal_log, h]
  · intro h
    simp [delete_meal_log, h]
  · cases hget : get_meal_by_id db user_id meal_id with
    | error e => simp [update_meal_log, hget]
    | ok o =>
      cases o with
      | none => simp [update_meal_log, hget]
      | some db_meal =>
        obtain ⟨hdbu, hdbm⟩ := get_meal_by_id_user db user_id meal_id db_meal hget
        have hl : ∀ m ∈ db.meals, m.id = db_meal.id → m.user_id = user_id :=
          fun m hm hid => by rw [hwf m hm db_meal hdbm hid]; exact hdbu
        have hupd : (recompute_totals db u.servings.isSome
            (apply_meal_update db_meal u)).user_id = user_id := by
          rw [recompute_totals_user_id, apply_meal_update_user_id]
          exact hdbu
        simp only [update_meal_log, hget]
        exact filter_map_update_other_users db.meals user_id db_meal.id _ hupd hl
  · cases hget : get_meal_by_id db user_id meal_id with
    | error e => simp [delete_meal_log, hget]
    | ok o =>
      cases o with
      | none => simp [delete_meal_log, hget]
      | some db_meal =>
        obtain ⟨hdbu, hdbm⟩ := get_meal_by_id_user db user_id meal_id db_meal hget
        have hl : ∀ m ∈ db.meals, m.id = db_meal.id → m.user_id = user_id :=
          fun m hm hid => by rw [hwf m hm db_meal hdbm hid]; exact hdbu
        simp only [delete_meal_log, hget]
        exact filter_erase_other_users db.meals user_id db_meal.id hl

/-- C10 witness: on a store holding one meal of user 7 and one of user 8,
the row fetched by user 7 is their own, and user 7 updating meal 1 leaves
user 8's rows untouched. -/
theorem C10_witness :
    ({ id := 1, user_id := 7, food_id := 3, servings := 1, timestamp := 10,
       notes := Option.none, calories := 100, protein_g := 10, carbs_g := 0,
       fat_g := 0, idempotency_key := Option.none } : Meal).user_id = 7 ∧
    (update_meal_log
        { foods := [{ id := 3, calories := 100, protein_g := 10, carbs_g := 0, fat_g := 0 }],
          meals := [{ id := 1, user_id := 7, food_id := 3, servings := 1, timestamp := 10,
                      notes := Option.none, calories := 100, protein_g := 10, carbs_g := 0,
                      fat_g := 0, idempotency_key := Option.none },
                    { id := 2, user_id := 8, food_id := 3, servings := 1, timestamp := 11,
                      notes := Option.none, calories := 100, protein_g := 10, carbs_g := 0,
                      fat_g := 0, idempotency_key := Option.none }],
          next_meal_id := 3 }
        7 1 { servings := some 3, timestamp := Option.none, notes := Option.none }).2.meals.filter
        (fun m => !(m.user_id == 7)) =
      ({ foods := [{ id := 3, calories := 100, protein_g := 10, carbs_g := 0, fat_g := 0 }],
         meals := [{ id := 1, user_id := 7, food_id := 3, servings := 1, timestamp := 10,
                     notes := Option.none, calories := 100, protein_g := 10, carbs_g := 0,
                     fat_g := 0, idempotency_key := Option.none },
                   { id := 2, user_id := 8, food_id := 3, servings := 1, timestamp := 11,
                     notes := Option.none, calories := 100, protein_g := 10, carbs_g := 0,
                     fat_g := 0, idempotency_key := Option.none }],
         next_meal_id := 3 } : DB).meals.filter (fun m => !(m.user_id == 7)) := by
  constructor
  · exact (C10_meal_operations_tenant_scoped
      { foods := [{ id := 3, calories := 100, protein_g := 10, carbs_g := 0, fat_g := 0 }],
        meals := [{ id := 1, user_id := 7, food_id := 3, servings := 1, timestamp := 10,
                    notes := Option.none, calories := 100, protein_g := 10, carbs_g := 0,
                    fat_g := 0, idempotency_key := Option.none },
                  { id := 2, user_id := 8, food_id := 3, servings := 1, timestamp := 11,
                    notes := Option.none, calories := 100, protein_g := 10, carbs_g := 0,
                    fat_g := 0, idempotency_key := Option.none }],
        next_meal_id := 3 }
      7 1 { limit := 10, offset := 0, start_date := Option.none, end_date := Option.none }
      { servings := some 3, timestamp := Option.none, notes := Option.none }
      (by decide)).1 _ rfl
  · exact (C10_meal_operations_tenant_scoped
      { foods := [{ id := 3, calories := 100, protein_g := 10, carbs_g := 0, fat_g := 0 }],
        meals := [{ id := 1, user_id := 7, food_id := 3, servings := 1, timestamp := 10,
                    notes := Option.none, calories := 100, protein_g := 10, carbs_g := 0,
                    fat_g := 0, idempotency_key := Option.none },
                  { id := 2, user_id := 8, food_id := 3, servings := 1, timestamp := 11,
                    notes := Option.none, calories := 100, protein_g := 10, carbs_g := 0,
                    fat_g := 0, idempotency_key := Option.none }],
        next_meal_id := 3 }
      7 1 { limit := 10, offset := 0, start_date := Option.none, end_date := Option.none }
      { servings := some 3, timestamp := Option.none, notes := Option.none }
      (by decide)).2.2.2.2.2.1

mutual

/-- Helper: canonical values round-trip exactly through `dumps` then
`loads`. -/
theorem dumps_loads_id : ∀ v : PyVal, canonical v = true →
    Option.map loads (dumps v) = some v
  | PyVal.none, _ => rfl
  | PyVal.bool _, _ => rfl
  | PyVal.int _, _ => rfl
  | PyVal.str _, _ => rfl
  | PyVal.list xs, h => by
      have ih := dumpsList_loadsList_id xs (by simpa [canonical] using h)
      obtain ⟨js, hjs, hload⟩ := Option.map_eq_some'.mp ih
      simp [dumps, hjs, loads, hload]
  | PyVal.tuple _, h => by simp [canonical] at h
  | PyVal.dict kvs, h => by
      have ih := dumpsObj_loadsObj_id kvs (by simpa [canonical] using h)
      obtain ⟨os, hos, hload⟩ := Option.map_eq_some'.mp ih
      simp [dumps, hos, loads, hload]

/-- Helper: elementwise round-trip for lists of canonical values. -/
theorem dumpsList_loadsList_id : ∀ xs : List PyVal, canonicalList xs = true →
    Option.map loadsList (dumpsList xs) = some xs
  | [], _ => rfl
  | x :: xs, h => by
      have hx : canonical x = true := by
        have h2 := h
        simp [canonicalList, Bool.and_eq_true] at h2
        exact h2.1
      have hxs : canonicalList xs = true := by
        have h2 := h
        simp [canonicalList, Bool.and_eq_true] at h2
        exact h2.2
      obtain ⟨j, hj, hl1⟩ := Option.map_eq_some'.mp (dumps_loads_id x hx)
      obtain ⟨js, hjs, hl2⟩ := Option.map_eq_some'.mp (dumpsList_loadsList_id xs hxs)
      simp [dumpsList, hj, hjs, loadsList, hl1, hl2]

/-- Helper: itemwise round-trip for dict items with string keys and
canonical values. -/
theorem dumpsObj_loadsObj_id : ∀ kvs : List (PyVal × PyVal), canonicalObj kvs = true →
    Option.map loadsObj (dumpsObj kvs) = some kvs
  | [], _ => rfl
  | (k, v) :: kvs, h => by
      have h2 := h
      simp [canonicalObj, Bool.and_eq_true] at h2
      obtain ⟨⟨hk, hv⟩, hkvs⟩ := h2
      obtain ⟨j, hj, hl1⟩ := Option.map_eq_some'.mp (dumps_loads_id v hv)
      obtain ⟨os, hos, hl2⟩ := Option.map_eq_some'.mp (dumpsObj_loadsObj_id kvs hkvs)
      match k, hk with
      | PyVal.str s, _ =>
          simp [dumpsObj, key_to_string, hj, hos, loadsObj, hl1, hl2]

end

/-- C7 counterexample: the dict `{1: "a"}` is JSON-serializable
(`json.dumps` accepts it, coercing the key), yet a set followed by an
immediate get does not return a deep-equal value: the integer key comes
back as the string `"1"`. -/
theorem C7_counterexample_int_keyed_dict :
    (dumps (PyVal.dict [(PyVal.int 1, PyVal.str "a")])).isSome = true ∧
    get_cached_data
        (set_cached_data [] "k" (PyVal.dict [(PyVal.int 1, PyVal.str "a")]) 300 0) "k" 0
      ≠ some (PyVal.dict [(PyVal.int 1, PyVal.str "a")]) := by
  refine ⟨rfl, ?_⟩
  intro hcontra
  have hval : get_cached_data
      (set_cached_data [] "k" (PyVal.dict [(PyVal.int 1, PyVal.str "a")]) 300 0) "k" 0
      = some (PyVal.dict [(PyVal.str "1", PyVal.str "a")]) := rfl
  rw [hval] at hcontra
  simp at hcontra

/-- C7 (amended): for canonical values — no tuples, every dict key a
string — `set_cached_data` followed by `get_cached_data` before the TTL
expires returns the value deep-equal, and once the TTL has elapsed the
get is a miss. -/
theorem C7_canonical_roundtrip_and_ttl_expiry (st : List CacheEntry) (key : String)
    (v : PyVal) (ttl now now1 now2 : Nat) (hc : canonical v = true)
    (h1 : now1 < now + ttl) (h2 : now + ttl ≤ now2) :
    get_cached_data (set_cached_data st key v ttl now) key now1 = some v ∧
    get_cached_data (set_cached_data st key v ttl now) key now2 = Option.none := by
  obtain ⟨j, hj, hl⟩ := Option.map_eq_some'.mp (dumps_loads_id v hc)
  have hnot : ¬ (now2 < now + ttl) := by omega
  constructor
  · simp [set_cached_data, hj, get_cached_data, h1, hl]
  · simp [set_cached_data, hj, get_cached_data, hnot]

/-- C7 witness: the canonical dict `{"a": 2}` set with TTL 300 at time 0
reads back deep-equal at time 299 and misses at time 300. -/
theorem C7_witness :
    get_cached_data
        (set_cached_data [] "analytics:7" (PyVal.dict [(PyVal.str "a", PyVal.int 2)]) 300 0)
        "analytics:7" 299
      = some (PyVal.dict [(PyVal.str "a", PyVal.int 2)]) ∧
    get_cached_data
        (set_cached_data [] "analytics:7" (PyVal.dict [(PyVal.str "a", PyVal.int 2)]) 300 0)
        "analytics:7" 300
      = Option.none :=
  C7_canonical_roundtrip_and_ttl_expiry [] "analytics:7"
    (PyVal.dict [(PyVal.str "a", PyVal.int 2)]) 300 0 299 300
    (by decide) (by decide) (by decide)

end Wellora
